import Mathlib

/-
Verification of the exa-go client library (src/exa.go) against its
natural-language specification.

The Go program is a thin HTTP+JSON client.  The embedding below models:
  * JSON values as an inductive type `Json` (numbers as exact rationals);
  * an HTTP response body as `Option Json` (`none` stands for a body that
    is not valid JSON, including an empty body);
  * the HTTP executor (`*http.Client`) as a structure holding its
    configured timeout and a function from requests to responses;
  * Go's `encoding/json` marshalling of the request structs as concrete
    string-producing functions that follow the struct tags, the field
    order, and the `omitempty` rule of the source;
  * Go's `encoding/json` unmarshalling of the response structs as
    decoders over `Json` following Go semantics: a JSON null is a no-op,
    unknown object keys are ignored, key matching is exact or
    case-insensitive, later duplicate keys overwrite earlier ones, and a
    type mismatch is an error.
Machine integers are modelled as `Int` (the Go code never exercises
overflow) and JSON numbers as `Rat`.
-/

/-- A JSON value.  Numbers are kept exact as rationals. -/
inductive Json where
  | null : Json
  | bool (b : Bool) : Json
  | num (q : Rat) : Json
  | str (s : String) : Json
  | arr (elems : List Json) : Json
  | obj (fields : List (String × Json)) : Json

/-- An outbound HTTP request, as built by the source's `do` method:
a method, a full URL, the headers in the order the source sets them,
and an optional serialized body. -/
structure HttpRequest where
  method : String
  url : String
  headers : List (String × String)
  body : Option String

/-- An inbound HTTP response: a status code and a body.  The body is
`some j` when it is valid JSON parsing to `j`, and `none` when it is
empty or not valid JSON. -/
structure HttpResponse where
  statusCode : Nat
  body : Option Json

/-- Model of Go's `*http.Client`: the configured timeout (seconds) and
the round-trip behavior.  `Except.error` is a transport failure
(connection refused, timeout, cancellation). -/
structure HttpClient where
  timeoutSeconds : Nat
  exec : HttpRequest → Except String HttpResponse

/-- The real network round trip of the default `http.Client` lies outside
the program; no theorem below depends on its behavior.  Only the
30-second timeout configured in `New` is meaningful to the model. -/
def defaultTransport : HttpRequest → Except String HttpResponse :=
  fun _ => Except.error "network external to the model"

/-- Client is the Exa API client (src/exa.go lines 17-22). -/
structure Client where
  apiKey : String
  baseURL : String
  httpClient : HttpClient

/-- ClientOption embeds the source's `Option` type (`func(*Client)`),
renamed because `Option` is taken by Lean's core library. -/
def ClientOption : Type := Client → Client

/-- WithHTTPClient sets a custom HTTP client. -/
def WithHTTPClient (client : HttpClient) : ClientOption :=
  fun c => { c with httpClient := client }

/-- WithBaseURL sets a custom base URL. -/
def WithBaseURL (url : String) : ClientOption :=
  fun c => { c with baseURL := url }

/-- The fixed production endpoint (src/exa.go line 14). -/
def prodBaseURL : String := "https://api.exa.ai"

/-- The default executor: `&http.Client\x7bTimeout: 30 * time.Second\x7d`. -/
def defaultHttpClient : HttpClient :=
  { timeoutSeconds := 30, exec := defaultTransport }

/-- New creates a new Exa API client (src/exa.go lines 41-52).  The
options are applied in order, as the source's `for` loop does.  New is a
total function: no error is possible at construction time. -/
def New (apiKey : String) (opts : List ClientOption) : Client :=
  opts.foldl (fun c opt => opt c)
    { apiKey := apiKey, baseURL := prodBaseURL, httpClient := defaultHttpClient }

/- ---------------------------------------------------------------------
Request structs (src/exa.go lines 56-125, 175-198, 214-229, 253-259,
274-280).  Field defaults are the Go zero values, so `\x7b\x7d` is the Go
zero struct.  Pointer fields become `Option`, slices become `List`.
--------------------------------------------------------------------- -/

/-- TextOptions defines options for retrieving text content from pages. -/
structure TextOptions where
  IncludeHtmlTags : Bool := false
  MaxCharacters : Int := 0

/-- HighlightOptions defines options for generating highlights. -/
structure HighlightOptions where
  NumSentences : Int := 0
  HighlightsPerURL : Int := 0
  Query : String := ""

/-- SummaryOptions defines options for generating summaries. -/
structure SummaryOptions where
  Query : String := ""

/-- ContentsOptions defines options for what content to retrieve. -/
structure ContentsOptions where
  Text : Option TextOptions := none
  Highlights : Option HighlightOptions := none
  Summary : Option SummaryOptions := none
  LiveCrawl : String := ""

/-- SearchOptions defines parameters for the Search endpoint.  The Go
field `Type` is written `SearchType` here because `Type` is a Lean
keyword; its JSON tag stays `type`. -/
structure SearchOptions where
  NumResults : Int := 0
  IncludeDomains : List String := []
  ExcludeDomains : List String := []
  StartCrawlDate : String := ""
  EndCrawlDate : String := ""
  StartPublishedDate : String := ""
  EndPublishedDate : String := ""
  IncludeText : List String := []
  ExcludeText : List String := []
  Contents : Option ContentsOptions := none
  UseAutoprompt : Option Bool := none
  SearchType : String := ""
  Category : String := ""

/-- searchRequest wraps a query with embedded SearchOptions
(src/exa.go lines 122-125). -/
structure searchRequest where
  Query : String
  searchOptions : SearchOptions

/-- FindSimilarOptions defines parameters for the FindSimilar endpoint. -/
structure FindSimilarOptions where
  NumResults : Int := 0
  IncludeDomains : List String := []
  ExcludeDomains : List String := []
  StartCrawlDate : String := ""
  EndCrawlDate : String := ""
  StartPublishedDate : String := ""
  EndPublishedDate : String := ""
  Contents : Option ContentsOptions := none

/-- findSimilarRequest wraps a URL with embedded FindSimilarOptions. -/
structure findSimilarRequest where
  URL : String
  findSimilarOptions : FindSimilarOptions

/-- GetContentsOptions defines parameters for the Contents endpoint. -/
structure GetContentsOptions where
  Text : Option TextOptions := none
  Highlights : Option HighlightOptions := none
  Summary : Option SummaryOptions := none
  LiveCrawl : String := ""

/-- getContentsRequest wraps ids with embedded GetContentsOptions. -/
structure getContentsRequest where
  IDs : List String
  getContentsOptions : GetContentsOptions

/-- AnswerOptions defines parameters for the Answer endpoint. -/
structure AnswerOptions where
  Query : String
  Text : Bool := false

/-- The polymorphic token budget held by `ContextOptions.TokensNum`
(Go `interface\x7b\x7d`): the callers pass either a string or an integer. -/
inductive TokensNum where
  | str (s : String) : TokensNum
  | int (n : Int) : TokensNum

/-- ContextOptions defines parameters for the Context endpoint.  The Go
field `TokensNum interface\x7b\x7d` with `omitempty` is omitted exactly when
the interface is nil, modelled by `none`. -/
structure ContextOptions where
  Query : String
  TokensNum : Option TokensNum := none

/- ---------------------------------------------------------------------
Marshalling: Go `encoding/json` on the request structs.  Output fields
follow struct declaration order; `omitempty` drops zero values
(0, "", false, nil pointer, empty slice, nil interface).  String
escaping follows Go's default HTML-escaping encoder.
--------------------------------------------------------------------- -/

/-- Lowercase hex digit, as Go's encoder uses. -/
def hexDigit (n : Nat) : Char :=
  if n < 10 then Char.ofNat (48 + n) else Char.ofNat (87 + n)

/-- Escape one character the way Go's `encoding/json` does with its
default HTML escaping: quote, backslash, newline, carriage return, tab,
other control characters as hex escapes, and the HTML-sensitive
characters and the line separators as unicode escapes. -/
def escapeChar (c : Char) : String :=
  if c = '"' then "\\\""
  else if c = '\\' then "\\\\"
  else if c = '\n' then "\\n"
  else if c = '\r' then "\\r"
  else if c = '\t' then "\\t"
  else if c.toNat < 32 then
    String.mk ['\\', 'u', '0', '0', hexDigit (c.toNat / 16), hexDigit (c.toNat % 16)]
  else if c = '<' then "\\u003c"
  else if c = '>' then "\\u003e"
  else if c = '&' then "\\u0026"
  else if c.toNat = 0x2028 then "\\u2028"
  else if c.toNat = 0x2029 then "\\u2029"
  else String.mk [c]

/-- Render a Go string as a JSON string literal. -/
def renderString (s : String) : String :=
  "\"" ++ String.join (s.data.map escapeChar) ++ "\""

/-- Render a Go bool. -/
def renderBool (b : Bool) : String :=
  if b then "true" else "false"

/-- Join already-rendered fragments with commas. -/
def joinComma : List String → String
  | [] => ""
  | [x] => x
  | x :: xs => x ++ "," ++ joinComma xs

/-- Wrap rendered `key:value` fragments into a JSON object. -/
def renderObj (fields : List String) : String :=
  "\x7b" ++ joinComma fields ++ "\x7d"

/-- Render a `[]string` value as a JSON array. -/
def renderStrArray (l : List String) : String :=
  "[" ++ joinComma (l.map renderString) ++ "]"

/-- A rendered `key:value` fragment (keys are fixed ASCII tags needing
no escaping). -/
def fieldRaw (key v : String) : String :=
  "\"" ++ key ++ "\":" ++ v

/-- An `int` field with `omitempty`: omitted exactly when zero. -/
def intField (key : String) (v : Int) : List String :=
  if v = 0 then [] else [fieldRaw key (toString v)]

/-- A `string` field with `omitempty`: omitted exactly when empty. -/
def strField (key : String) (v : String) : List String :=
  if v = "" then [] else [fieldRaw key (renderString v)]

/-- A `bool` field with `omitempty`: omitted exactly when false. -/
def boolField (key : String) (v : Bool) : List String :=
  if v = false then [] else [fieldRaw key (renderBool v)]

/-- A `[]string` field with `omitempty`: omitted when nil or empty. -/
def strListField (key : String) (v : List String) : List String :=
  if v = [] then [] else [fieldRaw key (renderStrArray v)]

/-- A `*bool` field with `omitempty`: omitted exactly when nil; a
non-nil pointer to `false` is still emitted. -/
def optBoolField (key : String) (v : Option Bool) : List String :=
  match v with
  | none => []
  | some b => [fieldRaw key (renderBool b)]

/-- Fragments of `TextOptions`, in struct order. -/
def TextOptions.jsonFields (t : TextOptions) : List String :=
  boolField "includeHtmlTags" t.IncludeHtmlTags ++
  intField "maxCharacters" t.MaxCharacters

/-- Marshal of a standalone `TextOptions` value. -/
def marshalTextOptions (t : TextOptions) : String :=
  renderObj t.jsonFields

/-- Fragments of `HighlightOptions`, in struct order. -/
def HighlightOptions.jsonFields (h : HighlightOptions) : List String :=
  intField "numSentences" h.NumSentences ++
  intField "highlightsPerUrl" h.HighlightsPerURL ++
  strField "query" h.Query

/-- Marshal of a standalone `HighlightOptions` value. -/
def marshalHighlightOptions (h : HighlightOptions) : String :=
  renderObj h.jsonFields

/-- Fragments of `SummaryOptions`, in struct order. -/
def SummaryOptions.jsonFields (s : SummaryOptions) : List String :=
  strField "query" s.Query

/-- Marshal of a standalone `SummaryOptions` value. -/
def marshalSummaryOptions (s : SummaryOptions) : String :=
  renderObj s.jsonFields

/-- Fragments of `ContentsOptions`, in struct order.  The three pointer
fields are omitted exactly when nil. -/
def ContentsOptions.jsonFields (c : ContentsOptions) : List String :=
  (match c.Text with
   | none => []
   | some t => [fieldRaw "text" (marshalTextOptions t)]) ++
  (match c.Highlights with
   | none => []
   | some h => [fieldRaw "highlights" (marshalHighlightOptions h)]) ++
  (match c.Summary with
   | none => []
   | some s => [fieldRaw "summary" (marshalSummaryOptions s)]) ++
  strField "livecrawl" c.LiveCrawl

/-- Marshal of a standalone `ContentsOptions` value. -/
def marshalContentsOptions (c : ContentsOptions) : String :=
  renderObj c.jsonFields

/-- Fragments of `SearchOptions`, in struct order. -/
def SearchOptions.jsonFields (s : SearchOptions) : List String :=
  intField "numResults" s.NumResults ++
  strListField "includeDomains" s.IncludeDomains ++
  strListField "excludeDomains" s.ExcludeDomains ++
  strField "startCrawlDate" s.StartCrawlDate ++
  strField "endCrawlDate" s.EndCrawlDate ++
  strField "startPublishedDate" s.StartPublishedDate ++
  strField "endPublishedDate" s.EndPublishedDate ++
  strListField "includeText" s.IncludeText ++
  strListField "excludeText" s.ExcludeText ++
  (match s.Contents with
   | none => []
   | some c => [fieldRaw "contents" (marshalContentsOptions c)]) ++
  optBoolField "useAutoprompt" s.UseAutoprompt ++
  strField "type" s.SearchType ++
  strField "category" s.Category

/-- Marshal of a standalone `SearchOptions` value, as
`json.Marshal(SearchOptions\x7b...\x7d)` would produce. -/
def marshalSearchOptions (s : SearchOptions) : String :=
  renderObj s.jsonFields

/-- Marshal of the `searchRequest` wrapper: `query` first (no
`omitempty`), then the embedded options flattened in place. -/
def marshalSearchRequest (r : searchRequest) : String :=
  renderObj ([fieldRaw "query" (renderString r.Query)] ++ r.searchOptions.jsonFields)

/-- Fragments of `FindSimilarOptions`, in struct order. -/
def FindSimilarOptions.jsonFields (s : FindSimilarOptions) : List String :=
  intField "numResults" s.NumResults ++
  strListField "includeDomains" s.IncludeDomains ++
  strListField "excludeDomains" s.ExcludeDomains ++
  strField "startCrawlDate" s.StartCrawlDate ++
  strField "endCrawlDate" s.EndCrawlDate ++
  strField "startPublishedDate" s.StartPublishedDate ++
  strField "endPublishedDate" s.EndPublishedDate ++
  (match s.Contents with
   | none => []
   | some c => [fieldRaw "contents" (marshalContentsOptions c)])

/-- Marshal of the `findSimilarRequest` wrapper: `url` first, then the
embedded options flattened. -/
def marshalFindSimilarRequest (r : findSimilarRequest) : String :=
  renderObj ([fieldRaw "url" (renderString r.URL)] ++ r.findSimilarOptions.jsonFields)

/-- Fragments of `GetContentsOptions`, in struct order. -/
def GetContentsOptions.jsonFields (c : GetContentsOptions) : List String :=
  (match c.Text with
   | none => []
   | some t => [fieldRaw "text" (marshalTextOptions t)]) ++
  (match c.Highlights with
   | none => []
   | some h => [fieldRaw "highlights" (marshalHighlightOptions h)]) ++
  (match c.Summary with
   | none => []
   | some s => [fieldRaw "summary" (marshalSummaryOptions s)]) ++
  strField "livecrawl" c.LiveCrawl

/-- Marshal of the `getContentsRequest` wrapper: `ids` first (no
`omitempty`, always present; a nil Go slice would render `null` but the
model does not distinguish nil from empty slices), then the embedded
options flattened. -/
def marshalGetContentsRequest (r : getContentsRequest) : String :=
  renderObj ([fieldRaw "ids" (renderStrArray r.IDs)] ++ r.getContentsOptions.jsonFields)

/-- Marshal of `AnswerOptions`: `query` always present, `text` with
`omitempty`. -/
def marshalAnswerOptions (o : AnswerOptions) : String :=
  renderObj ([fieldRaw "query" (renderString o.Query)] ++ boolField "text" o.Text)

/-- Render the dynamic value held by the `TokensNum` interface field. -/
def renderTokensNum (t : TokensNum) : String :=
  match t with
  | .str s => renderString s
  | .int n => toString n

/-- Marshal of `ContextOptions`: `query` always present, `tokensNum`
omitted exactly when the interface is nil. -/
def marshalContextOptions (o : ContextOptions) : String :=
  renderObj ([fieldRaw "query" (renderString o.Query)] ++
    (match o.TokensNum with
     | none => []
     | some t => [fieldRaw "tokensNum" (renderTokensNum t)]))

/- ---------------------------------------------------------------------
Response structs (src/exa.go lines 127-159, 231-237, 261-272, 282-296)
and their decoders.  The decoders follow Go `encoding/json` unmarshal
semantics: the destination starts at the Go zero value of the struct, a
JSON null leaves the current value unchanged, an object is folded key by
key in order (later duplicates overwrite), a key matches a field tag
exactly or case-insensitively, unknown keys are ignored, and a type
mismatch fails.
--------------------------------------------------------------------- -/

/-- Result represents a single search result. -/
structure Result where
  ID : String := ""
  URL : String := ""
  Title : String := ""
  Author : String := ""
  PublishedDate : String := ""
  Text : String := ""
  Highlights : List String := []
  Summary : String := ""
  Score : Rat := 0
  Image : String := ""
  Favicon : String := ""

/-- SearchResponse represents the response from the Search endpoint. -/
structure SearchResponse where
  Results : List Result := []
  RequestID : String := ""

/-- GetContentsResponse represents the response from the Contents
endpoint. -/
structure GetContentsResponse where
  Results : List Result := []
  RequestID : String := ""

/-- The unexported wire struct `answerResponse`. -/
structure answerResponse where
  Answer : String := ""
  Citations : List Result := []
  RequestID : String := ""

/-- AnswerResponse is the public result type of `Answer`. -/
structure AnswerResponse where
  Answer : String := ""
  Citations : List Result := []
  RequestID : String := ""

/-- ContextResponse represents the response from the Context endpoint.
`CostDollars interface\x7b\x7d` holds whatever JSON value arrived; the Go
zero value of an interface is nil, modelled as `Json.null`. -/
structure ContextResponse where
  Response : String := ""
  RequestID : String := ""
  ResultsCount : Int := 0
  SearchTime : Rat := 0
  OutputTokens : Int := 0
  CostDollars : Json := Json.null

/-- Lowercase an ASCII letter, identity elsewhere. -/
def charFold (c : Char) : Char :=
  if 65 ≤ c.toNat then
    if c.toNat ≤ 90 then Char.ofNat (c.toNat + 32) else c
  else c

/-- Case-insensitive string comparison (ASCII restriction of Go's
`strings.EqualFold`; every JSON tag of the source is plain ASCII). -/
def strFoldEq (a b : String) : Bool :=
  a.data.map charFold == b.data.map charFold

/-- Key matching of Go unmarshalling: exact tag match, else
case-insensitive. -/
def keyMatch (key tag : String) : Bool :=
  key == tag || strFoldEq key tag

/-- Unmarshal a JSON value into a `string` destination holding `cur`:
null is a no-op, a string replaces, anything else is a type error. -/
def decodeString (v : Json) (cur : String) : Except String String :=
  match v with
  | .null => .ok cur
  | .str s => .ok s
  | _ => .error "json: cannot unmarshal value into field of type string"

/-- Unmarshal a JSON value into an `int` destination: the number must be
integral (Go parses the literal with ParseInt).  Go's int64 range check
is not modelled. -/
def decodeInt (v : Json) (cur : Int) : Except String Int :=
  match v with
  | .null => .ok cur
  | .num q => if q.den = 1 then .ok q.num
              else .error "json: cannot unmarshal number into field of type int"
  | _ => .error "json: cannot unmarshal value into field of type int"

/-- Unmarshal a JSON value into a `float64` destination (numbers kept
exact as rationals). -/
def decodeRat (v : Json) (cur : Rat) : Except String Rat :=
  match v with
  | .null => .ok cur
  | .num q => .ok q
  | _ => .error "json: cannot unmarshal value into field of type float64"

/-- Unmarshal the elements of a JSON array into a fresh `[]string`; each
element decodes into a zero string. -/
def decodeStringElems : List Json → Except String (List String)
  | [] => .ok []
  | v :: rest =>
    match decodeString v "" with
    | .error e => .error e
    | .ok s =>
      match decodeStringElems rest with
      | .error e => .error e
      | .ok l => .ok (s :: l)

/-- Unmarshal a JSON value into a `[]string` destination: null is a
no-op, an array replaces the slice wholesale. -/
def decodeStringList (v : Json) (cur : List String) : Except String (List String) :=
  match v with
  | .null => .ok cur
  | .arr xs => decodeStringElems xs
  | _ => .error "json: cannot unmarshal value into field of type []string"

/-- Apply one object key to a `Result` destination. -/
def updResultField (r : Result) (k : String) (v : Json) : Except String Result :=
  if keyMatch k "id" then
    match decodeString v r.ID with
    | .error e => .error e
    | .ok x => .ok { r with ID := x }
  else if keyMatch k "url" then
    match decodeString v r.URL with
    | .error e => .error e
    | .ok x => .ok { r with URL := x }
  else if keyMatch k "title" then
    match decodeString v r.Title with
    | .error e => .error e
    | .ok x => .ok { r with Title := x }
  else if keyMatch k "author" then
    match decodeString v r.Author with
    | .error e => .error e
    | .ok x => .ok { r with Author := x }
  else if keyMatch k "publishedDate" then
    match decodeString v r.PublishedDate with
    | .error e => .error e
    | .ok x => .ok { r with PublishedDate := x }
  else if keyMatch k "text" then
    match decodeString v r.Text with
    | .error e => .error e
    | .ok x => .ok { r with Text := x }
  else if keyMatch k "highlights" then
    match decodeStringList v r.Highlights with
    | .error e => .error e
    | .ok x => .ok { r with Highlights := x }
  else if keyMatch k "summary" then
    match decodeString v r.Summary with
    | .error e => .error e
    | .ok x => .ok { r with Summary := x }
  else if keyMatch k "score" then
    match decodeRat v r.Score with
    | .error e => .error e
    | .ok x => .ok { r with Score := x }
  else if keyMatch k "image" then
    match decodeString v r.Image with
    | .error e => .error e
    | .ok x => .ok { r with Image := x }
  else if keyMatch k "favicon" then
    match decodeString v r.Favicon with
    | .error e => .error e
    | .ok x => .ok { r with Favicon := x }
  else .ok r

/-- Fold the keys of an object into a `Result` destination. -/
def decodeResultObj : List (String × Json) → Result → Except String Result
  | [], r => .ok r
  | (k, v) :: rest, r =>
    match updResultField r k v with
    | .error e => .error e
    | .ok r2 => decodeResultObj rest r2

/-- Unmarshal a JSON value into a `Result` destination. -/
def decodeResult (v : Json) (cur : Result) : Except String Result :=
  match v with
  | .null => .ok cur
  | .obj kvs => decodeResultObj kvs cur
  | _ => .error "json: cannot unmarshal value into field of type Result"

/-- Unmarshal the elements of a JSON array into a fresh `[]Result`; each
element decodes into a zero `Result`. -/
def decodeResultElems : List Json → Except String (List Result)
  | [] => .ok []
  | v :: rest =>
    match decodeResult v {} with
    | .error e => .error e
    | .ok r =>
      match decodeResultElems rest with
      | .error e => .error e
      | .ok l => .ok (r :: l)

/-- Unmarshal a JSON value into a `[]Result` destination. -/
def decodeResultList (v : Json) (cur : List Result) : Except String (List Result) :=
  match v with
  | .null => .ok cur
  | .arr xs => decodeResultElems xs
  | _ => .error "json: cannot unmarshal value into field of type []Result"

/-- Apply one object key to a `SearchResponse` destination. -/
def updSearchResponseField (r : SearchResponse) (k : String) (v : Json) :
    Except String SearchResponse :=
  if keyMatch k "results" then
    match decodeResultList v r.Results with
    | .error e => .error e
    | .ok x => .ok { r with Results := x }
  else if keyMatch k "requestId" then
    match decodeString v r.RequestID with
    | .error e => .error e
    | .ok x => .ok { r with RequestID := x }
  else .ok r

/-- Fold the keys of an object into a `SearchResponse` destination. -/
def decodeSearchResponseObj : List (String × Json) → SearchResponse →
    Except String SearchResponse
  | [], r => .ok r
  | (k, v) :: rest, r =>
    match updSearchResponseField r k v with
    | .error e => .error e
    | .ok r2 => decodeSearchResponseObj rest r2

/-- Unmarshal a JSON document into a zero `SearchResponse`, as
`json.NewDecoder(resp.Body).Decode(&resp)` does in `Search` and
`FindSimilar`. -/
def decodeSearchResponse (v : Json) : Except String SearchResponse :=
  match v with
  | .null => .ok {}
  | .obj kvs => decodeSearchResponseObj kvs {}
  | _ => .error "json: cannot unmarshal value into SearchResponse"

/-- Apply one object key to a `GetContentsResponse` destination. -/
def updGetContentsResponseField (r : GetContentsResponse) (k : String) (v : Json) :
    Except String GetContentsResponse :=
  if keyMatch k "results" then
    match decodeResultList v r.Results with
    | .error e => .error e
    | .ok x => .ok { r with Results := x }
  else if keyMatch k "requestId" then
    match decodeString v r.RequestID with
    | .error e => .error e
    | .ok x => .ok { r with RequestID := x }
  else .ok r

/-- Fold the keys of an object into a `GetContentsResponse`. -/
def decodeGetContentsResponseObj : List (String × Json) → GetContentsResponse →
    Except String GetContentsResponse
  | [], r => .ok r
  | (k, v) :: rest, r =>
    match updGetContentsResponseField r k v with
    | .error e => .error e
    | .ok r2 => decodeGetContentsResponseObj rest r2

/-- Unmarshal a JSON document into a zero `GetContentsResponse`. -/
def decodeGetContentsResponse (v : Json) : Except String GetContentsResponse :=
  match v with
  | .null => .ok {}
  | .obj kvs => decodeGetContentsResponseObj kvs {}
  | _ => .error "json: cannot unmarshal value into GetContentsResponse"

/-- Apply one object key to an `answerResponse` destination. -/
def updAnswerResponseField (r : answerResponse) (k : String) (v : Json) :
    Except String answerResponse :=
  if keyMatch k "answer" then
    match decodeString v r.Answer with
    | .error e => .error e
    | .ok x => .ok { r with Answer := x }
  else if keyMatch k "citations" then
    match decodeResultList v r.Citations with
    | .error e => .error e
    | .ok x => .ok { r with Citations := x }
  else if keyMatch k "requestId" then
    match decodeString v r.RequestID with
    | .error e => .error e
    | .ok x => .ok { r with RequestID := x }
  else .ok r

/-- Fold the keys of an object into an `answerResponse`. -/
def decodeAnswerResponseObj : List (String × Json) → answerResponse →
    Except String answerResponse
  | [], r => .ok r
  | (k, v) :: rest, r =>
    match updAnswerResponseField r k v with
    | .error e => .error e
    | .ok r2 => decodeAnswerResponseObj rest r2

/-- Unmarshal a JSON document into a zero `answerResponse`. -/
def decodeAnswerResponse (v : Json) : Except String answerResponse :=
  match v with
  | .null => .ok {}
  | .obj kvs => decodeAnswerResponseObj kvs {}
  | _ => .error "json: cannot unmarshal value into answerResponse"

/-- Apply one object key to a `ContextResponse` destination.  Decoding
any JSON value into the `interface\x7b\x7d` field `CostDollars` stores the
value itself. -/
def updContextResponseField (r : ContextResponse) (k : String) (v : Json) :
    Except String ContextResponse :=
  if keyMatch k "response" then
    match decodeString v r.Response with
    | .error e => .error e
    | .ok x => .ok { r with Response := x }
  else if keyMatch k "requestId" then
    match decodeString v r.RequestID with
    | .error e => .error e
    | .ok x => .ok { r with RequestID := x }
  else if keyMatch k "resultsCount" then
    match decodeInt v r.ResultsCount with
    | .error e => .error e
    | .ok x => .ok { r with ResultsCount := x }
  else if keyMatch k "searchTime" then
    match decodeRat v r.SearchTime with
    | .error e => .error e
    | .ok x => .ok { r with SearchTime := x }
  else if keyMatch k "outputTokens" then
    match decodeInt v r.OutputTokens with
    | .error e => .error e
    | .ok x => .ok { r with OutputTokens := x }
  else if keyMatch k "costDollars" then .ok { r with CostDollars := v }
  else .ok r

/-- Fold the keys of an object into a `ContextResponse`. -/
def decodeContextResponseObj : List (String × Json) → ContextResponse →
    Except String ContextResponse
  | [], r => .ok r
  | (k, v) :: rest, r =>
    match updContextResponseField r k v with
    | .error e => .error e
    | .ok r2 => decodeContextResponseObj rest r2

/-- Unmarshal a JSON document into a zero `ContextResponse`. -/
def decodeContextResponse (v : Json) : Except String ContextResponse :=
  match v with
  | .null => .ok {}
  | .obj kvs => decodeContextResponseObj kvs {}
  | _ => .error "json: cannot unmarshal value into ContextResponse"

/-- Unmarshal the error body into `struct \x7b Message string \x7d`
(src/exa.go lines 361-364): fold the object keys, a `message` key
updating the string. -/
def decodeErrObj : List (String × Json) → String → Except String String
  | [], cur => .ok cur
  | (k, v) :: rest, cur =>
    match (if keyMatch k "message" then decodeString v cur else .ok cur) with
    | .error e => .error e
    | .ok cur2 => decodeErrObj rest cur2

/-- Model of `json.NewDecoder(resp.Body).Decode(&errResp)` at src/exa.go
line 364: a body that is not valid JSON (including an empty body) fails;
null is a no-op leaving the zero message; an object folds its keys; any
other top-level value is a type error. -/
def decodeErrResp : Option Json → Except String String
  | none => .error "invalid JSON in error body"
  | some .null => .ok ""
  | some (.obj kvs) => decodeErrObj kvs ""
  | some _ => .error "json: cannot unmarshal value into error struct"

/-- True exactly when the error-body decode at src/exa.go line 364
fails, taking the generic-message branch at line 365. -/
def errBodyUndecodable (b : Option Json) : Bool :=
  match decodeErrResp b with
  | .error _ => true
  | .ok _ => false

/- ---------------------------------------------------------------------
The dispatcher (src/exa.go lines 334-377) and the five operations.
`do` is a Lean keyword, so the method is embedded as `doRequest`,
factored into the request construction (lines 345-352), the round trip
(line 354), and the response handling (lines 360-376).  The marshal
error branch at lines 338-341 is dead for the five operations: their
request structs always marshal (the marshal functions above are total),
so the branch has no counterpart here.  The `result != nil` guard at
line 370 is always taken: every operation passes a non-nil result
pointer.
--------------------------------------------------------------------- -/

/-- Build the outbound request: URL `baseURL + path`, then the three
`Header.Set` calls in source order (src/exa.go lines 345-352). -/
def Client.buildRequest (c : Client) (method path : String) (body : Option String) :
    HttpRequest :=
  { method := method
    url := c.baseURL ++ path
    headers :=
      [("Content-Type", "application/json"),
       ("x-api-key", c.apiKey),
       ("User-Agent", "exa-go-client/1.0")]
    body := body }

/-- Handle the round-trip outcome (src/exa.go lines 354-376): wrap a
transport failure; on status >= 400 decode the error body, falling back
to the status-only message when that decode fails; otherwise decode the
success body into the destination, wrapping a decode failure. -/
def handleResponse {α : Type} (dec : Json → Except String α)
    (r : Except String HttpResponse) : Except String α :=
  match r with
  | .error e => .error ("failed to execute request: " ++ e)
  | .ok resp =>
    if 400 ≤ resp.statusCode then
      match decodeErrResp resp.body with
      | .error _ => .error ("api request failed with status " ++ toString resp.statusCode)
      | .ok msg => .error ("api error: " ++ msg ++ " (status " ++ toString resp.statusCode ++ ")")
    else
      match resp.body with
      | none => .error "failed to decode response: invalid JSON"
      | some j =>
        match dec j with
        | .error e => .error ("failed to decode response: " ++ e)
        | .ok v => .ok v

/-- doRequest embeds the source method `do`: build the request, run it
through the configured executor, handle the response. -/
def Client.doRequest {α : Type} (c : Client) (method path : String)
    (body : Option String) (dec : Json → Except String α) : Except String α :=
  handleResponse dec (c.httpClient.exec (c.buildRequest method path body))

/-- Search performs a search using the Exa API (src/exa.go lines
161-173).  The Go pair `(*SearchResponse, error)` is modelled as
`Option SearchResponse × Option String`. -/
def Client.Search (c : Client) (query : String) (opts : SearchOptions) :
    Option SearchResponse × Option String :=
  let reqBody := marshalSearchRequest { Query := query, searchOptions := opts }
  match c.doRequest "POST" "/search" (some reqBody) decodeSearchResponse with
  | .error e => (none, some e)
  | .ok resp => (some resp, none)

/-- FindSimilar finds similar links to the provided URL (src/exa.go
lines 200-212). -/
def Client.FindSimilar (c : Client) (url : String) (opts : FindSimilarOptions) :
    Option SearchResponse × Option String :=
  let reqBody := marshalFindSimilarRequest { URL := url, findSimilarOptions := opts }
  match c.doRequest "POST" "/findSimilar" (some reqBody) decodeSearchResponse with
  | .error e => (none, some e)
  | .ok resp => (some resp, none)

/-- GetContents retrieves contents for the provided IDs (src/exa.go
lines 239-251). -/
def Client.GetContents (c : Client) (ids : List String) (opts : GetContentsOptions) :
    Option GetContentsResponse × Option String :=
  let reqBody := marshalGetContentsRequest { IDs := ids, getContentsOptions := opts }
  match c.doRequest "POST" "/contents" (some reqBody) decodeGetContentsResponse with
  | .error e => (none, some e)
  | .ok resp => (some resp, none)

/-- Answer gets an answer to a question (src/exa.go lines 298-314).
`Text` is hard-coded to true, and the wire struct is re-shaped into the
public `AnswerResponse`. -/
def Client.Answer (c : Client) (query : String) :
    Option AnswerResponse × Option String :=
  let reqBody := marshalAnswerOptions { Query := query, Text := true }
  match c.doRequest "POST" "/answer" (some reqBody) decodeAnswerResponse with
  | .error e => (none, some e)
  | .ok resp =>
    (some { Answer := resp.Answer, Citations := resp.Citations, RequestID := resp.RequestID },
     none)

/-- Context gets code context for a query (src/exa.go lines 316-332).
A nil `tokensNum` is replaced by the sentinel string "dynamic" before
the request is built. -/
def Client.Context (c : Client) (query : String) (tokensNum : Option TokensNum) :
    Option ContextResponse × Option String :=
  let tn := match tokensNum with
            | none => some (TokensNum.str "dynamic")
            | some t => some t
  let reqBody := marshalContextOptions { Query := query, TokensNum := tn }
  match c.doRequest "POST" "/context" (some reqBody) decodeContextResponse with
  | .error e => (none, some e)
  | .ok resp => (some resp, none)

/- ---------------------------------------------------------------------
Helpers for stating the claims: substring search over the serialized
bodies, the JSON envelope shapes the spec describes, and an
all-or-nothing predicate on the Go result pair.
--------------------------------------------------------------------- -/

/-- Does the pattern occur at the front of the list? -/
def listStartsWith : List Char → List Char → Bool
  | _, [] => true
  | [], _ :: _ => false
  | a :: as, b :: bs => a == b && listStartsWith as bs

/-- Does the pattern occur anywhere in the list? -/
def listHasSub : List Char → List Char → Bool
  | [], pat => listStartsWith [] pat
  | a :: t, pat => listStartsWith (a :: t) pat || listHasSub t pat

/-- Does the pattern occur as a contiguous substring? -/
def strContains (s pat : String) : Bool :=
  listHasSub s.data pat.data

/-- A Go wire object matching the Result-list envelope schema, built
from given results and request id. -/
def resultToJson (r : Result) : Json :=
  Json.obj
    [("id", Json.str r.ID), ("url", Json.str r.URL), ("title", Json.str r.Title),
     ("author", Json.str r.Author), ("publishedDate", Json.str r.PublishedDate),
     ("text", Json.str r.Text), ("highlights", Json.arr (r.Highlights.map Json.str)),
     ("summary", Json.str r.Summary), ("score", Json.num r.Score),
     ("image", Json.str r.Image), ("favicon", Json.str r.Favicon)]

/-- The Result-list envelope: `\x7b"results": [...], "requestId": "..."\x7d`. -/
def searchEnvelope (rs : List Result) (rid : String) : Json :=
  Json.obj [("results", Json.arr (rs.map resultToJson)), ("requestId", Json.str rid)]

/-- The answer envelope: `\x7b"answer": ..., "citations": [...],
"requestId": ...\x7d`. -/
def answerEnvelope (a : String) (cs : List Result) (rid : String) : Json :=
  Json.obj [("answer", Json.str a), ("citations", Json.arr (cs.map resultToJson)),
            ("requestId", Json.str rid)]

/-- The Go pair `(*T, error)` holds exactly one of a result and an
error. -/
def exclusiveResult {α : Type} (p : Option α × Option String) : Prop :=
  (p.1.isSome = true ∧ p.2 = none) ∨ (p.1 = none ∧ p.2.isSome = true)

/- ---------------------------------------------------------------------
Supporting lemmas.
--------------------------------------------------------------------- -/
--------------------------------------------------------------------- -/

theorem listStartsWith_nil (l : List Char) : listStartsWith l [] = true := by
  cases l <;> rfl

theorem listStartsWith_self_append (p b : List Char) :
    listStartsWith (p ++ b) p = true := by
  induction p with
  | nil => exact listStartsWith_nil b
  | cons a as ih => simp [listStartsWith, ih]

theorem listHasSub_of_startsWith (l p : List Char) (h : listStartsWith l p = true) :
    listHasSub l p = true := by
  cases l with
  | nil => exact h
  | cons a t => simp [listHasSub, h]

theorem listHasSub_middle (a p b : List Char) :
    listHasSub (a ++ (p ++ b)) p = true := by
  induction a with
  | nil => exact listHasSub_of_startsWith _ _ (listStartsWith_self_append p b)
  | cons x xs ih => simp [listHasSub, ih]

theorem decodeStringElems_map (l : List String) :
    decodeStringElems (l.map Json.str) = .ok l := by
  induction l with
  | nil => rfl
  | cons s rest ih => simp [decodeStringElems, decodeString, ih]

theorem updResult_id (r : Result) (v : Json) : updResultField r "id" v =
    (match decodeString v r.ID with
     | .error e => .error e
     | .ok x => .ok { r with ID := x }) := rfl

theorem updResult_url (r : Result) (v : Json) : updResultField r "url" v =
    (match decodeString v r.URL with
     | .error e => .error e
     | .ok x => .ok { r with URL := x }) := rfl

theorem updResult_title (r : Result) (v : Json) : updResultField r "title" v =
    (match decodeString v r.Title with
     | .error e => .error e
     | .ok x => .ok { r with Title := x }) := rfl

theorem updResult_author (r : Result) (v : Json) : updResultField r "author" v =
    (match decodeString v r.Author with
     | .error e => .error e
     | .ok x => .ok { r with Author := x }) := rfl

theorem updResult_publishedDate (r : Result) (v : Json) :
    updResultField r "publishedDate" v =
    (match decodeString v r.PublishedDate with
     | .error e => .error e
     | .ok x => .ok { r with PublishedDate := x }) := rfl

theorem updResult_text (r : Result) (v : Json) : updResultField r "text" v =
    (match decodeString v r.Text with
     | .error e => .error e
     | .ok x => .ok { r with Text := x }) := rfl

theorem updResult_highlights (r : Result) (v : Json) :
    updResultField r "highlights" v =
    (match decodeStringList v r.Highlights with
     | .error e => .error e
     | .ok x => .ok { r with Highlights := x }) := rfl

theorem updResult_summary (r : Result) (v : Json) : updResultField r "summary" v =
    (match decodeString v r.Summary with
     | .error e => .error e
     | .ok x => .ok { r with Summary := x }) := rfl

theorem updResult_score (r : Result) (v : Json) : updResultField r "score" v =
    (match decodeRat v r.Score with
     | .error e => .error e
     | .ok x => .ok { r with Score := x }) := rfl

theorem updResult_image (r : Result) (v : Json) : updResultField r "image" v =
    (match decodeString v r.Image with
     | .error e => .error e
     | .ok x => .ok { r with Image := x }) := rfl

theorem updResult_favicon (r : Result) (v : Json) : updResultField r "favicon" v =
    (match decodeString v r.Favicon with
     | .error e => .error e
     | .ok x => .ok { r with Favicon := x }) := rfl

theorem decodeResult_resultToJson (r : Result) :
    decodeResult (resultToJson r) {} = .ok r := by
  simp [resultToJson, decodeResult, decodeResultObj,
        updResult_id, updResult_url, updResult_title, updResult_author,
        updResult_publishedDate, updResult_text, updResult_highlights,
        updResult_summary, updResult_score, updResult_image, updResult_favicon,
        decodeString, decodeStringList, decodeRat, decodeStringElems_map]

theorem decodeResultElems_map (l : List Result) :
    decodeResultElems (l.map resultToJson) = .ok l := by
  induction l with
  | nil => rfl
  | cons r rest ih => simp [decodeResultElems, decodeResult_resultToJson, ih]

theorem updSearchResponse_results (r : SearchResponse) (v : Json) :
    updSearchResponseField r "results" v =
    (match decodeResultList v r.Results with
     | .error e => .error e
     | .ok x => .ok { r with Results := x }) := rfl

theorem updSearchResponse_requestId (r : SearchResponse) (v : Json) :
    updSearchResponseField r "requestId" v =
    (match decodeString v r.RequestID with
     | .error e => .error e
     | .ok x => .ok { r with RequestID := x }) := rfl

theorem decodeSearchResponse_envelope (rs : List Result) (rid : String) :
    decodeSearchResponse (searchEnvelope rs rid) =
      .ok { Results := rs, RequestID := rid } := by
  simp [searchEnvelope, decodeSearchResponse, decodeSearchResponseObj,
        updSearchResponse_results, updSearchResponse_requestId,
        decodeResultList, decodeResultElems_map, decodeString]

theorem updAnswerResponse_answer (r : answerResponse) (v : Json) :
    updAnswerResponseField r "answer" v =
    (match decodeString v r.Answer with
     | .error e => .error e
     | .ok x => .ok { r with Answer := x }) := rfl

theorem updAnswerResponse_citations (r : answerResponse) (v : Json) :
    updAnswerResponseField r "citations" v =
    (match decodeResultList v r.Citations with
     | .error e => .error e
     | .ok x => .ok { r with Citations := x }) := rfl

theorem updAnswerResponse_requestId (r : answerResponse) (v : Json) :
    updAnswerResponseField r "requestId" v =
    (match decodeString v r.RequestID with
     | .error e => .error e
     | .ok x => .ok { r with RequestID := x }) := rfl

theorem decodeAnswerResponse_envelope (a : String) (cs : List Result) (rid : String) :
    decodeAnswerResponse (answerEnvelope a cs rid) =
      .ok { Answer := a, Citations := cs, RequestID := rid } := by
  simp [answerEnvelope, decodeAnswerResponse, decodeAnswerResponseObj,
        updAnswerResponse_answer, updAnswerResponse_citations,
        updAnswerResponse_requestId,
        decodeResultList, decodeResultElems_map, decodeString]

theorem exclusive_of_match {α β : Type} (e : Except String α) (g : α → β) :
    exclusiveResult (match e with
      | .error err => ((none : Option β), some err)
      | .ok v => (some (g v), none)) := by
  cases e <;> simp [exclusiveResult]

theorem doRequest_status_generic {α : Type} (c : Client) (m p : String)
    (b : Option String) (dec : Json → Except String α) (status : Nat)
    (body : Option Json)
    (hexec : ∀ r, c.httpClient.exec r = .ok { statusCode := status, body := body })
    (hs : 400 ≤ status) (hu : errBodyUndecodable body = true) :
    c.doRequest m p b dec =
      .error ("api request failed with status " ++ toString status) := by
  unfold Client.doRequest handleResponse
  rw [hexec]
  cases hd : decodeErrResp body with
  | error e => simp [hs, hd]
  | ok v => rw [errBodyUndecodable, hd] at hu; cases hu

theorem doRequest_api_error {α : Type} (c : Client) (m p : String)
    (b : Option String) (dec : Json → Except String α) (status : Nat)
    (body : Option Json) (msg : String)
    (hexec : ∀ r, c.httpClient.exec r = .ok { statusCode := status, body := body })
    (hs : 400 ≤ status) (hm : decodeErrResp body = .ok msg) :
    c.doRequest m p b dec =
      .error ("api error: " ++ msg ++ " (status " ++ toString status ++ ")") := by
  unfold Client.doRequest handleResponse
  rw [hexec]
  simp [hs, hm]

theorem doRequest_ok {α : Type} (c : Client) (m p : String)
    (b : Option String) (dec : Json → Except String α) (status : Nat)
    (body : Json) (v : α)
    (hexec : ∀ r, c.httpClient.exec r = .ok { statusCode := status, body := some body })
    (hs : status < 400) (hdec : dec body = .ok v) :
    c.doRequest m p b dec = .ok v := by
  unfold Client.doRequest handleResponse
  rw [hexec]
  simp [Nat.not_le.mpr hs, hdec]

theorem decodeErrObj_no_message (kvs : List (String × Json)) (cur : String)
    (h : ∀ kv ∈ kvs, keyMatch kv.1 "message" = false) :
    decodeErrObj kvs cur = .ok cur := by
  induction kvs with
  | nil => rfl
  | cons kv rest ih =>
    obtain ⟨k, v⟩ := kv
    have hk : keyMatch k "message" = false := h (k, v) (List.mem_cons_self _ _)
    simp only [decodeErrObj, hk, Bool.false_eq_true, if_false]
    exact ih (fun kv hm => h kv (List.mem_cons_of_mem _ hm))

/- Each operation, rewritten by the outcome of its dispatch. -/

theorem Search_error (c : Client) (q : String) (opts : SearchOptions) (e : String)
    (hd : c.doRequest "POST" "/search"
      (some (marshalSearchRequest { Query := q, searchOptions := opts }))
      decodeSearchResponse = .error e) :
    c.Search q opts = (none, some e) := by
  rw [show c.Search q opts =
      (match c.doRequest "POST" "/search"
        (some (marshalSearchRequest { Query := q, searchOptions := opts }))
        decodeSearchResponse with
      | .error e => (none, some e)
      | .ok resp => (some resp, none)) from rfl, hd]

theorem Search_ok (c : Client) (q : String) (opts : SearchOptions) (v : SearchResponse)
    (hd : c.doRequest "POST" "/search"
      (some (marshalSearchRequest { Query := q, searchOptions := opts }))
      decodeSearchResponse = .ok v) :
    c.Search q opts = (some v, none) := by
  rw [show c.Search q opts =
      (match c.doRequest "POST" "/search"
        (some (marshalSearchRequest { Query := q, searchOptions := opts }))
        decodeSearchResponse with
      | .error e => (none, some e)
      | .ok resp => (some resp, none)) from rfl, hd]

theorem FindSimilar_error (c : Client) (url : String) (opts : FindSimilarOptions)
    (e : String)
    (hd : c.doRequest "POST" "/findSimilar"
      (some (marshalFindSimilarRequest { URL := url, findSimilarOptions := opts }))
      decodeSearchResponse = .error e) :
    c.FindSimilar url opts = (none, some e) := by
  rw [show c.FindSimilar url opts =
      (match c.doRequest "POST" "/findSimilar"
        (some (marshalFindSimilarRequest { URL := url, findSimilarOptions := opts }))
        decodeSearchResponse with
      | .error e => (none, some e)
      | .ok resp => (some resp, none)) from rfl, hd]

theorem FindSimilar_ok (c : Client) (url : String) (opts : FindSimilarOptions)
    (v : SearchResponse)
    (hd : c.doRequest "POST" "/findSimilar"
      (some (marshalFindSimilarRequest { URL := url, findSimilarOptions := opts }))
      decodeSearchResponse = .ok v) :
    c.FindSimilar url opts = (some v, none) := by
  rw [show c.FindSimilar url opts =
      (match c.doRequest "POST" "/findSimilar"
        (some (marshalFindSimilarRequest { URL := url, findSimilarOptions := opts }))
        decodeSearchResponse with
      | .error e => (none, some e)
      | .ok resp => (some resp, none)) from rfl, hd]

theorem GetContents_error (c : Client) (ids : List String) (opts : GetContentsOptions)
    (e : String)
    (hd : c.doRequest "POST" "/contents"
      (some (marshalGetContentsRequest { IDs := ids, getContentsOptions := opts }))
      decodeGetContentsResponse = .error e) :
    c.GetContents ids opts = (none, some e) := by
  rw [show c.GetContents ids opts =
      (match c.doRequest "POST" "/contents"
        (some (marshalGetContentsRequest { IDs := ids, getContentsOptions := opts }))
        decodeGetContentsResponse with
      | .error e => (none, some e)
      | .ok resp => (some resp, none)) from rfl, hd]

theorem GetContents_ok (c : Client) (ids : List String) (opts : GetContentsOptions)
    (v : GetContentsResponse)
    (hd : c.doRequest "POST" "/contents"
      (some (marshalGetContentsRequest { IDs := ids, getContentsOptions := opts }))
      decodeGetContentsResponse = .ok v) :
    c.GetContents ids opts = (some v, none) := by
  rw [show c.GetContents ids opts =
      (match c.doRequest "POST" "/contents"
        (some (marshalGetContentsRequest { IDs := ids, getContentsOptions := opts }))
        decodeGetContentsResponse with
      | .error e => (none, some e)
      | .ok resp => (some resp, none)) from rfl, hd]

theorem Answer_error (c : Client) (q e : String)
    (hd : c.doRequest "POST" "/answer"
      (some (marshalAnswerOptions { Query := q, Text := true }))
      decodeAnswerResponse = .error e) :
    c.Answer q = (none, some e) := by
  rw [show c.Answer q =
      (match c.doRequest "POST" "/answer"
        (some (marshalAnswerOptions { Query := q, Text := true }))
        decodeAnswerResponse with
      | .error e => (none, some e)
      | .ok resp =>
        (some { Answer := resp.Answer, Citations := resp.Citations,
                RequestID := resp.RequestID }, none)) from rfl, hd]

theorem Answer_ok (c : Client) (q : String) (v : answerResponse)
    (hd : c.doRequest "POST" "/answer"
      (some (marshalAnswerOptions { Query := q, Text := true }))
      decodeAnswerResponse = .ok v) :
    c.Answer q =
      (some { Answer := v.Answer, Citations := v.Citations, RequestID := v.RequestID },
       none) := by
  rw [show c.Answer q =
      (match c.doRequest "POST" "/answer"
        (some (marshalAnswerOptions { Query := q, Text := true }))
        decodeAnswerResponse with
      | .error e => (none, some e)
      | .ok resp =>
        (some { Answer := resp.Answer, Citations := resp.Citations,
                RequestID := resp.RequestID }, none)) from rfl, hd]

/-- The token-budget defaulting performed at the top of `Context`
(src/exa.go lines 320-322): a nil interface becomes the sentinel string
"dynamic". -/
def contextTokens : Option TokensNum → Option TokensNum
  | none => some (TokensNum.str "dynamic")
  | some t => some t

theorem Context_error (c : Client) (q : String) (tn : Option TokensNum) (e : String)
    (hd : c.doRequest "POST" "/context"
      (some (marshalContextOptions { Query := q, TokensNum := contextTokens tn }))
      decodeContextResponse = .error e) :
    c.Context q tn = (none, some e) := by
  rw [show c.Context q tn =
      (match c.doRequest "POST" "/context"
        (some (marshalContextOptions { Query := q, TokensNum := contextTokens tn }))
        decodeContextResponse with
      | .error e => (none, some e)
      | .ok resp => (some resp, none)) from rfl, hd]

theorem Context_ok (c : Client) (q : String) (tn : Option TokensNum) (v : ContextResponse)
    (hd : c.doRequest "POST" "/context"
      (some (marshalContextOptions { Query := q, TokensNum := contextTokens tn }))
      decodeContextResponse = .ok v) :
    c.Context q tn = (some v, none) := by
  rw [show c.Context q tn =
      (match c.doRequest "POST" "/context"
        (some (marshalContextOptions { Query := q, TokensNum := contextTokens tn }))
        decodeContextResponse with
      | .error e => (none, some e)
      | .ok resp => (some resp, none)) from rfl, hd]

/-- A stub client whose executor always yields the given outcome; used
to exercise the operations at concrete inputs. -/
def constClient (resp : Except String HttpResponse) : Client :=
  { apiKey := "test-key", baseURL := "http://server",
    httpClient := { timeoutSeconds := 30, exec := fun _ => resp } }

/- ---------------------------------------------------------------------
The claims.
--------------------------------------------------------------------- -/

/-- Claim C9: for every API key string, including the empty string, and
every sequence of configuration options, client construction succeeds
without error (`New` is a total function); with no options the client
keeps the key, uses the fixed production base URL
`https://api.exa.ai`, and the default HTTP executor with its 30-second
timeout; `WithBaseURL` overrides only the base URL and `WithHTTPClient`
only the executor. -/
theorem New_defaults_and_overrides (apiKey u : String) (h : HttpClient)
    (opts : List ClientOption) :
    New apiKey opts = opts.foldl (fun c opt => opt c) (New apiKey []) ∧
    (New apiKey []).apiKey = apiKey ∧
    (New apiKey []).baseURL = "https://api.exa.ai" ∧
    (New apiKey []).httpClient = defaultHttpClient ∧
    defaultHttpClient.timeoutSeconds = 30 ∧
    (New apiKey [WithBaseURL u]).baseURL = u ∧
    (New apiKey [WithBaseURL u]).apiKey = apiKey ∧
    (New apiKey [WithBaseURL u]).httpClient = defaultHttpClient ∧
    (New apiKey [WithHTTPClient h]).httpClient = h ∧
    (New apiKey [WithHTTPClient h]).apiKey = apiKey ∧
    (New apiKey [WithHTTPClient h]).baseURL = "https://api.exa.ai" :=
  ⟨rfl, rfl, rfl, rfl, rfl, rfl, rfl, rfl, rfl, rfl, rfl⟩

/-- Claim C8: every call to any of the five operations either fully
succeeds, returning a non-nil decoded result and no error, or fully
fails, returning exactly one error and a nil result; no call returns
both a partial result and an error. -/
theorem operations_all_or_nothing (c : Client) (q url aq cq : String)
    (ids : List String) (sopts : SearchOptions) (fopts : FindSimilarOptions)
    (gopts : GetContentsOptions) (tn : Option TokensNum) :
    exclusiveResult (c.Search q sopts) ∧
    exclusiveResult (c.FindSimilar url fopts) ∧
    exclusiveResult (c.GetContents ids gopts) ∧
    exclusiveResult (c.Answer aq) ∧
    exclusiveResult (c.Context cq tn) := by
  refine ⟨?_, ?_, ?_, ?_, ?_⟩
  · cases hd : c.doRequest "POST" "/search"
        (some (marshalSearchRequest { Query := q, searchOptions := sopts }))
        decodeSearchResponse with
    | error e => rw [Search_error c q sopts e hd]; right; exact ⟨rfl, rfl⟩
    | ok v => rw [Search_ok c q sopts v hd]; left; exact ⟨rfl, rfl⟩
  · cases hd : c.doRequest "POST" "/findSimilar"
        (some (marshalFindSimilarRequest { URL := url, findSimilarOptions := fopts }))
        decodeSearchResponse with
    | error e => rw [FindSimilar_error c url fopts e hd]; right; exact ⟨rfl, rfl⟩
    | ok v => rw [FindSimilar_ok c url fopts v hd]; left; exact ⟨rfl, rfl⟩
  · cases hd : c.doRequest "POST" "/contents"
        (some (marshalGetContentsRequest { IDs := ids, getContentsOptions := gopts }))
        decodeGetContentsResponse with
    | error e => rw [GetContents_error c ids gopts e hd]; right; exact ⟨rfl, rfl⟩
    | ok v => rw [GetContents_ok c ids gopts v hd]; left; exact ⟨rfl, rfl⟩
  · cases hd : c.doRequest "POST" "/answer"
        (some (marshalAnswerOptions { Query := aq, Text := true }))
        decodeAnswerResponse with
    | error e => rw [Answer_error c aq e hd]; right; exact ⟨rfl, rfl⟩
    | ok v => rw [Answer_ok c aq v hd]; left; exact ⟨rfl, rfl⟩
  · cases hd : c.doRequest "POST" "/context"
        (some (marshalContextOptions { Query := cq, TokensNum := contextTokens tn }))
        decodeContextResponse with
    | error e => rw [Context_error c cq tn e hd]; right; exact ⟨rfl, rfl⟩
    | ok v => rw [Context_ok c cq tn v hd]; left; exact ⟨rfl, rfl⟩

/-- Claim C5: every HTTP request issued by any of the five operations
carries the header x-api-key equal to the configured API key,
Content-Type application/json, and the fixed User-Agent
`exa-go-client/1.0`, and targets the URL baseURL ++ resourcePath
(`/search`, `/findSimilar`, `/contents`, `/answer`, `/context`) via the
POST method.  Each operation factors through the executor applied to
exactly that request. -/
theorem requests_carry_headers_and_target (c : Client)
    (method path q url aq cq : String) (body : Option String) (ids : List String)
    (sopts : SearchOptions) (fopts : FindSimilarOptions) (gopts : GetContentsOptions)
    (tn : Option TokensNum) :
    (c.buildRequest method path body).headers =
      [("Content-Type", "application/json"),
       ("x-api-key", c.apiKey),
       ("User-Agent", "exa-go-client/1.0")] ∧
    (c.buildRequest method path body).url = c.baseURL ++ path ∧
    (c.buildRequest method path body).method = method ∧
    (∃ k : Except String HttpResponse → Option SearchResponse × Option String,
      c.Search q sopts = k (c.httpClient.exec (c.buildRequest "POST" "/search"
        (some (marshalSearchRequest { Query := q, searchOptions := sopts }))))) ∧
    (∃ k : Except String HttpResponse → Option SearchResponse × Option String,
      c.FindSimilar url fopts = k (c.httpClient.exec (c.buildRequest "POST" "/findSimilar"
        (some (marshalFindSimilarRequest { URL := url, findSimilarOptions := fopts }))))) ∧
    (∃ k : Except String HttpResponse → Option GetContentsResponse × Option String,
      c.GetContents ids gopts = k (c.httpClient.exec (c.buildRequest "POST" "/contents"
        (some (marshalGetContentsRequest { IDs := ids, getContentsOptions := gopts }))))) ∧
    (∃ k : Except String HttpResponse → Option AnswerResponse × Option String,
      c.Answer aq = k (c.httpClient.exec (c.buildRequest "POST" "/answer"
        (some (marshalAnswerOptions { Query := aq, Text := true }))))) ∧
    (∃ k : Except String HttpResponse → Option ContextResponse × Option String,
      c.Context cq tn = k (c.httpClient.exec (c.buildRequest "POST" "/context"
        (some (marshalContextOptions { Query := cq, TokensNum := contextTokens tn }))))) := by
  refine ⟨rfl, rfl, rfl, ?_, ?_, ?_, ?_, ?_⟩
  · exact ⟨fun r => match handleResponse decodeSearchResponse r with
      | .error e => (none, some e)
      | .ok v => (some v, none), rfl⟩
  · exact ⟨fun r => match handleResponse decodeSearchResponse r with
      | .error e => (none, some e)
      | .ok v => (some v, none), rfl⟩
  · exact ⟨fun r => match handleResponse decodeGetContentsResponse r with
      | .error e => (none, some e)
      | .ok v => (some v, none), rfl⟩
  · exact ⟨fun r => match handleResponse decodeAnswerResponse r with
      | .error e => (none, some e)
      | .ok v => (some { Answer := v.Answer, Citations := v.Citations,
                         RequestID := v.RequestID }, none), rfl⟩
  · exact ⟨fun r => match handleResponse decodeContextResponse r with
      | .error e => (none, some e)
      | .ok v => (some v, none), rfl⟩

/-- Claim C2: for every operation, a response with status >= 400 whose
JSON body carries a "message" field fails with error text exactly
`api error: <message> (status <code>)`. -/
theorem api_error_message_format (c : Client) (status : Nat) (msg : String)
    (q url aq cq : String) (ids : List String) (sopts : SearchOptions)
    (fopts : FindSimilarOptions) (gopts : GetContentsOptions) (tn : Option TokensNum)
    (hexec : ∀ r, c.httpClient.exec r =
      .ok { statusCode := status, body := some (Json.obj [("message", Json.str msg)]) })
    (hs : 400 ≤ status) :
    c.Search q sopts =
      (none, some ("api error: " ++ msg ++ " (status " ++ toString status ++ ")")) ∧
    c.FindSimilar url fopts =
      (none, some ("api error: " ++ msg ++ " (status " ++ toString status ++ ")")) ∧
    c.GetContents ids gopts =
      (none, some ("api error: " ++ msg ++ " (status " ++ toString status ++ ")")) ∧
    c.Answer aq =
      (none, some ("api error: " ++ msg ++ " (status " ++ toString status ++ ")")) ∧
    c.Context cq tn =
      (none, some ("api error: " ++ msg ++ " (status " ++ toString status ++ ")")) := by
  have hm : decodeErrResp (some (Json.obj [("message", Json.str msg)])) = .ok msg := rfl
  exact ⟨Search_error _ _ _ _ (doRequest_api_error _ _ _ _ _ _ _ _ hexec hs hm),
         FindSimilar_error _ _ _ _ (doRequest_api_error _ _ _ _ _ _ _ _ hexec hs hm),
         GetContents_error _ _ _ _ (doRequest_api_error _ _ _ _ _ _ _ _ hexec hs hm),
         Answer_error _ _ _ (doRequest_api_error _ _ _ _ _ _ _ _ hexec hs hm),
         Context_error _ _ _ _ (doRequest_api_error _ _ _ _ _ _ _ _ hexec hs hm)⟩

/-- Claim C2 witness: status 400 with body
`\x7b"message": "invalid request"\x7d` yields exactly
`api error: invalid request (status 400)`. -/
theorem api_error_message_format_witness :
    (constClient (.ok
      { statusCode := 400,
        body := some (Json.obj [("message", Json.str "invalid request")]) })).Search
      "query" {} = (none, some "api error: invalid request (status 400)") :=
  (api_error_message_format
    (constClient (.ok
      { statusCode := 400,
        body := some (Json.obj [("message", Json.str "invalid request")]) }))
    400 "invalid request" "query" "u" "a" "c" [] {} {} {} none
    (fun _ => rfl) (by decide)).1

/-- Claim C1 counterexample: a status-500 response whose body is the
valid JSON object `\x7b\x7d` — JSON lacking a "message" field — makes the
operation fail with `api error:  (status 500)` (the error-body decode
succeeds with an empty message), not with the claimed
`api request failed with status 500`. -/
theorem generic_error_messageless_counterexample :
    (constClient (.ok { statusCode := 500, body := some (Json.obj []) })).Search "q" {} =
      (none, some "api error:  (status 500)") ∧
    ("api error:  (status 500)" : String) ≠ "api request failed with status 500" := by
  constructor
  · exact Search_error _ _ _ _
      (doRequest_api_error _ _ _ _ _ 500 (some (Json.obj [])) "" (fun _ => rfl)
        (by decide) rfl)
  · decide

/-- Claim C1 (amended): for every operation and any status >= 400, when
the error body fails to decode (not valid JSON, a non-object non-null
top level, or a non-string "message" value) the error text is exactly
`api request failed with status <code>`; a valid JSON object body
lacking a "message" field instead decodes to the empty message and
yields `api error:  (status <code>)`. -/
theorem generic_error_text_amended :
    (∀ (c : Client) (status : Nat) (body : Option Json) (q url aq cq : String)
       (ids : List String) (sopts : SearchOptions) (fopts : FindSimilarOptions)
       (gopts : GetContentsOptions) (tn : Option TokensNum),
      (∀ r, c.httpClient.exec r = .ok { statusCode := status, body := body }) →
      400 ≤ status → errBodyUndecodable body = true →
      c.Search q sopts =
        (none, some ("api request failed with status " ++ toString status)) ∧
      c.FindSimilar url fopts =
        (none, some ("api request failed with status " ++ toString status)) ∧
      c.GetContents ids gopts =
        (none, some ("api request failed with status " ++ toString status)) ∧
      c.Answer aq =
        (none, some ("api request failed with status " ++ toString status)) ∧
      c.Context cq tn =
        (none, some ("api request failed with status " ++ toString status))) ∧
    (∀ (c : Client) (status : Nat) (kvs : List (String × Json)) (q url aq cq : String)
       (ids : List String) (sopts : SearchOptions) (fopts : FindSimilarOptions)
       (gopts : GetContentsOptions) (tn : Option TokensNum),
      (∀ r, c.httpClient.exec r =
        .ok { statusCode := status, body := some (Json.obj kvs) }) →
      400 ≤ status → (∀ kv ∈ kvs, keyMatch kv.1 "message" = false) →
      c.Search q sopts =
        (none, some ("api error:  (status " ++ toString status ++ ")")) ∧
      c.FindSimilar url fopts =
        (none, some ("api error:  (status " ++ toString status ++ ")")) ∧
      c.GetContents ids gopts =
        (none, some ("api error:  (status " ++ toString status ++ ")")) ∧
      c.Answer aq =
        (none, some ("api error:  (status " ++ toString status ++ ")")) ∧
      c.Context cq tn =
        (none, some ("api error:  (status " ++ toString status ++ ")"))) := by
  constructor
  · intro c status body q url aq cq ids sopts fopts gopts tn hexec hs hu
    exact ⟨Search_error _ _ _ _ (doRequest_status_generic _ _ _ _ _ _ _ hexec hs hu),
           FindSimilar_error _ _ _ _ (doRequest_status_generic _ _ _ _ _ _ _ hexec hs hu),
           GetContents_error _ _ _ _ (doRequest_status_generic _ _ _ _ _ _ _ hexec hs hu),
           Answer_error _ _ _ (doRequest_status_generic _ _ _ _ _ _ _ hexec hs hu),
           Context_error _ _ _ _ (doRequest_status_generic _ _ _ _ _ _ _ hexec hs hu)⟩
  · intro c status kvs q url aq cq ids sopts fopts gopts tn hexec hs hnm
    have hm : decodeErrResp (some (Json.obj kvs)) = .ok "" :=
      decodeErrObj_no_message kvs "" hnm
    exact ⟨Search_error _ _ _ _ (doRequest_api_error _ _ _ _ _ _ _ _ hexec hs hm),
           FindSimilar_error _ _ _ _ (doRequest_api_error _ _ _ _ _ _ _ _ hexec hs hm),
           GetContents_error _ _ _ _ (doRequest_api_error _ _ _ _ _ _ _ _ hexec hs hm),
           Answer_error _ _ _ (doRequest_api_error _ _ _ _ _ _ _ _ hexec hs hm),
           Context_error _ _ _ _ (doRequest_api_error _ _ _ _ _ _ _ _ hexec hs hm)⟩

/-- Claim C1 witness: a 500 response with a non-JSON body yields the
generic text, and a 502 response with a message-less JSON object yields
the empty-message api error text. -/
theorem generic_error_text_amended_witness :
    (constClient (.ok { statusCode := 500, body := none })).Search "q" {} =
      (none, some "api request failed with status 500") ∧
    (constClient (.ok
      { statusCode := 502,
        body := some (Json.obj [("error", Json.str "bad gateway")]) })).Search "q" {} =
      (none, some "api error:  (status 502)") := by
  constructor
  · exact (generic_error_text_amended.1
      (constClient (.ok { statusCode := 500, body := none }))
      500 none "q" "u" "a" "c" [] {} {} {} none
      (fun _ => rfl) (by decide) rfl).1
  · exact (generic_error_text_amended.2
      (constClient (.ok
        { statusCode := 502,
          body := some (Json.obj [("error", Json.str "bad gateway")]) }))
      502 [("error", Json.str "bad gateway")] "q" "u" "a" "c" [] {} {} {} none
      (fun _ => rfl) (by decide) (by decide)).1

/-- Claim C3: `Context` called with no token-budget value (nil) sends a
request whose serialized body is built with the sentinel string
"dynamic" substituted, and that body contains the substring
`"tokensNum":"dynamic"`. -/
theorem context_nil_tokens_serializes_dynamic (c : Client) (q : String) :
    (∃ k : Except String HttpResponse → Option ContextResponse × Option String,
      c.Context q none = k (c.httpClient.exec (c.buildRequest "POST" "/context"
        (some (marshalContextOptions
          { Query := q, TokensNum := some (TokensNum.str "dynamic") }))))) ∧
    strContains
      (marshalContextOptions { Query := q, TokensNum := some (TokensNum.str "dynamic") })
      "\"tokensNum\":\"dynamic\"" = true := by
  constructor
  · exact ⟨fun r => match handleResponse decodeContextResponse r with
      | .error e => (none, some e)
      | .ok v => (some v, none), rfl⟩
  · rw [strContains]
    rw [show (marshalContextOptions
          { Query := q, TokensNum := some (TokensNum.str "dynamic") }).data
        = ("\x7b\"query\":" ++ renderString q ++ ",").data ++
          ("\"tokensNum\":\"dynamic\"".data ++ "\x7d".data) from by
      simp [marshalContextOptions, renderObj, joinComma, fieldRaw, renderTokensNum,
            show renderString "dynamic" = "\"dynamic\"" from rfl,
            String.data_append, List.append_assoc]]
    exact listHasSub_middle _ _ _

/-- Claim C4: `Answer` always serializes `"text":true` in its request
body regardless of caller input, and its returned result exposes
Answer, Citations, and RequestID equal to the wire response fields
`answer`, `citations`, and `requestId` respectively. -/
theorem answer_text_true_and_field_mapping (c c2 : Client) (q : String)
    (a rid : String) (cs : List Result)
    (hexec : ∀ r, c2.httpClient.exec r =
      .ok { statusCode := 200, body := some (answerEnvelope a cs rid) }) :
    (∃ k : Except String HttpResponse → Option AnswerResponse × Option String,
      c.Answer q = k (c.httpClient.exec (c.buildRequest "POST" "/answer"
        (some (marshalAnswerOptions { Query := q, Text := true }))))) ∧
    strContains (marshalAnswerOptions { Query := q, Text := true })
      "\"text\":true" = true ∧
    c2.Answer q = (some { Answer := a, Citations := cs, RequestID := rid }, none) := by
  refine ⟨?_, ?_, ?_⟩
  · exact ⟨fun r => match handleResponse decodeAnswerResponse r with
      | .error e => (none, some e)
      | .ok v => (some { Answer := v.Answer, Citations := v.Citations,
                         RequestID := v.RequestID }, none), rfl⟩
  · rw [strContains]
    rw [show (marshalAnswerOptions { Query := q, Text := true }).data
        = ("\x7b\"query\":" ++ renderString q ++ ",").data ++
          ("\"text\":true".data ++ "\x7d".data) from by
      simp [marshalAnswerOptions, renderObj, joinComma, fieldRaw, boolField, renderBool,
            String.data_append, List.append_assoc]]
    exact listHasSub_middle _ _ _
  · exact Answer_ok c2 q _ (doRequest_ok c2 "POST" "/answer"
      (some (marshalAnswerOptions { Query := q, Text := true }))
      decodeAnswerResponse 200 (answerEnvelope a cs rid)
      { Answer := a, Citations := cs, RequestID := rid } hexec (by decide)
      (decodeAnswerResponse_envelope a cs rid))

/-- Claim C4 witness: a concrete 200 answer envelope maps onto the
public result fields. -/
theorem answer_text_true_and_field_mapping_witness :
    (constClient (.ok
      { statusCode := 200,
        body := some (answerEnvelope "The answer is 42" [] "ans-id") })).Answer
      "What is the answer?" =
      (some { Answer := "The answer is 42", Citations := [], RequestID := "ans-id" },
       none) :=
  (answer_text_true_and_field_mapping
    (constClient (.ok
      { statusCode := 200,
        body := some (answerEnvelope "The answer is 42" [] "ans-id") }))
    (constClient (.ok
      { statusCode := 200,
        body := some (answerEnvelope "The answer is 42" [] "ans-id") }))
    "What is the answer?" "The answer is 42" "ans-id" [] (fun _ => rfl)).2.2

/-- Claim C7: for every query, a 2xx JSON response matching the
Result-list envelope schema makes `Search` return a result whose
RequestID equals the input JSON requestId and whose Results equal the
input results element for element. -/
theorem search_decodes_result_envelope (c : Client) (q : String) (opts : SearchOptions)
    (rs : List Result) (rid : String)
    (hexec : ∀ r, c.httpClient.exec r =
      .ok { statusCode := 200, body := some (searchEnvelope rs rid) }) :
    c.Search q opts = (some { Results := rs, RequestID := rid }, none) :=
  Search_ok c q opts _ (doRequest_ok c "POST" "/search"
    (some (marshalSearchRequest { Query := q, searchOptions := opts }))
    decodeSearchResponse 200 (searchEnvelope rs rid)
    { Results := rs, RequestID := rid } hexec (by decide)
    (decodeSearchResponse_envelope rs rid))

/-- Claim C7 witness: a concrete one-result envelope decodes through
`Search`. -/
theorem search_decodes_result_envelope_witness :
    (constClient (.ok
      { statusCode := 200,
        body := some (searchEnvelope
          [{ ID := "1", URL := "https://example.com", Title := "Example" }]
          "test-req-id") })).Search "test query" {} =
      (some { Results := [{ ID := "1", URL := "https://example.com", Title := "Example" }],
              RequestID := "test-req-id" }, none) :=
  search_decodes_result_envelope
    (constClient (.ok
      { statusCode := 200,
        body := some (searchEnvelope
          [{ ID := "1", URL := "https://example.com", Title := "Example" }]
          "test-req-id") }))
    "test query" {}
    [{ ID := "1", URL := "https://example.com", Title := "Example" }]
    "test-req-id" (fun _ => rfl)

/-- Claim C6: encoding a SearchOptions struct with only NumResults set
and every other field absent produces a JSON object containing only the
"numResults" key; no null or zero-value keys appear. -/
theorem searchOptions_only_numResults (opts : SearchOptions)
    (h1 : opts.NumResults ≠ 0) (h2 : opts.IncludeDomains = [])
    (h3 : opts.ExcludeDomains = []) (h4 : opts.StartCrawlDate = "")
    (h5 : opts.EndCrawlDate = "") (h6 : opts.StartPublishedDate = "")
    (h7 : opts.EndPublishedDate = "") (h8 : opts.IncludeText = [])
    (h9 : opts.ExcludeText = []) (h10 : opts.Contents = none)
    (h11 : opts.UseAutoprompt = none) (h12 : opts.SearchType = "")
    (h13 : opts.Category = "") :
    marshalSearchOptions opts =
      "\x7b\"numResults\":" ++ toString opts.NumResults ++ "\x7d" := by
  obtain ⟨n, f2, f3, f4, f5, f6, f7, f8, f9, f10, f11, f12, f13⟩ := opts
  dsimp only at h1 h2 h3 h4 h5 h6 h7 h8 h9 h10 h11 h12 h13
  subst h2 h3 h4 h5 h6 h7 h8 h9 h10 h11 h12 h13
  simp only [marshalSearchOptions, SearchOptions.jsonFields, intField, if_neg h1]
  exact rfl

/-- Claim C6 witness: NumResults = 5 marshals to exactly
`\x7b"numResults":5\x7d`. -/
theorem searchOptions_only_numResults_witness :
    marshalSearchOptions { NumResults := 5 } = "\x7b\"numResults\":5\x7d" :=
  searchOptions_only_numResults { NumResults := 5 } (by decide)
    rfl rfl rfl rfl rfl rfl rfl rfl rfl rfl rfl rfl

/-- Claim C10: a SearchOptions value whose fields all hold their zero
values serializes to exactly the same request body as an entirely empty
SearchOptions (only the query key remains), its field fragments are
empty, and a TextOptions with IncludeHtmlTags false never contributes an
includeHtmlTags fragment — so a caller can never transmit a zero, false,
or empty value for an optional field on the wire. -/
theorem zero_options_indistinguishable (q : String) (opts : SearchOptions)
    (t : TextOptions)
    (h1 : opts.NumResults = 0) (h2 : opts.IncludeDomains = [])
    (h3 : opts.ExcludeDomains = []) (h4 : opts.StartCrawlDate = "")
    (h5 : opts.EndCrawlDate = "") (h6 : opts.StartPublishedDate = "")
    (h7 : opts.EndPublishedDate = "") (h8 : opts.IncludeText = [])
    (h9 : opts.ExcludeText = []) (h10 : opts.Contents = none)
    (h11 : opts.UseAutoprompt = none) (h12 : opts.SearchType = "")
    (h13 : opts.Category = "") (ht : t.IncludeHtmlTags = false) :
    marshalSearchRequest { Query := q, searchOptions := opts } =
      marshalSearchRequest { Query := q, searchOptions := {} } ∧
    marshalSearchRequest { Query := q, searchOptions := opts } =
      "\x7b\"query\":" ++ renderString q ++ "\x7d" ∧
    SearchOptions.jsonFields opts = [] ∧
    TextOptions.jsonFields t = intField "maxCharacters" t.MaxCharacters := by
  obtain ⟨f1, f2, f3, f4, f5, f6, f7, f8, f9, f10, f11, f12, f13⟩ := opts
  obtain ⟨tb, tm⟩ := t
  dsimp only at h1 h2 h3 h4 h5 h6 h7 h8 h9 h10 h11 h12 h13 ht
  subst h1 h2 h3 h4 h5 h6 h7 h8 h9 h10 h11 h12 h13 ht
  exact ⟨rfl, rfl, rfl, rfl⟩

/-- Claim C10 witness: concrete zero options serialize with only the
query key, and a false IncludeHtmlTags leaves only the maxCharacters
fragment. -/
theorem zero_options_indistinguishable_witness :
    marshalSearchRequest { Query := "q0", searchOptions := { NumResults := 0 } } =
      "\x7b\"query\":\"q0\"\x7d" ∧
    TextOptions.jsonFields { IncludeHtmlTags := false, MaxCharacters := 9 } =
      intField "maxCharacters" 9 :=
  ⟨(zero_options_indistinguishable "q0" { NumResults := 0 }
      { IncludeHtmlTags := false, MaxCharacters := 9 }
      rfl rfl rfl rfl rfl rfl rfl rfl rfl rfl rfl rfl rfl rfl).2.1,
   (zero_options_indistinguishable "q0" {}
      { IncludeHtmlTags := false, MaxCharacters := 9 }
      rfl rfl rfl rfl rfl rfl rfl rfl rfl rfl rfl rfl rfl rfl).2.2.2⟩
